import Mathlib

/-!
Verification development for the request gateway module
`src/frontend/src/services/api.ts` of the Group-B repository.

The module is a thin axios-based HTTP client.  We shallowly embed the
JavaScript values that flow through its error-normalization helper
`handleAPIError`, its interceptors, and the request-descriptor
construction of each endpoint group, and prove the specified properties
about these definitions.
-/

/-- A JavaScript value, as far as the gateway module inspects one:
`undefined`, `null`, booleans, (integer) numbers, strings, and plain
objects given as ordered field lists.  This is the domain of the error
values, response bodies and request bodies the module handles. -/
inductive JSValue where
  | undefined : JSValue
  | null : JSValue
  | bool : Bool → JSValue
  | num : Int → JSValue
  | str : String → JSValue
  | obj : List (String × JSValue) → JSValue

/-- First-match field lookup in an object field list; a missing field
reads as `undefined`, as in JavaScript. -/
def lookupField (k : String) : List (String × JSValue) → JSValue
  | [] => JSValue.undefined
  | (k2, v) :: rest => if k2 = k then v else lookupField k rest

/-- Property read `v.k` as a value: objects look up the field, a missing
field and every non-object primitive read as `undefined`.  (The throwing
behaviour of reads on `null`/`undefined` is captured by `getProp`.) -/
def lookupProp : JSValue → String → JSValue
  | JSValue.obj fs, k => lookupField k fs
  | _, _ => JSValue.undefined

/-- JavaScript truthiness: `undefined`, `null`, `false`, `0` and the
empty string are falsy; every object is truthy. -/
def jsTruthy : JSValue → Bool
  | JSValue.undefined => false
  | JSValue.null => false
  | JSValue.bool b => b
  | JSValue.num n => n != 0
  | JSValue.str s => s != ""
  | JSValue.obj _ => true

/-- A value on which property access succeeds: everything except
`null` and `undefined`. -/
def propSafe : JSValue → Bool
  | JSValue.null => false
  | JSValue.undefined => false
  | _ => true

/-- The JavaScript `||` operator: the first operand when truthy,
otherwise the second. -/
def jsOr (a b : JSValue) : JSValue :=
  if jsTruthy a then a else b

/-- Property access `v.k` as evaluated by JavaScript: a `TypeError` is
thrown when `v` is `null` or `undefined`, otherwise the property value
(or `undefined`) is produced. -/
def getProp : JSValue → String → Except String JSValue
  | JSValue.null, _ => Except.error "TypeError"
  | JSValue.undefined, _ => Except.error "TypeError"
  | v, k => Except.ok (lookupProp v k)

/-- JavaScript `toString()` conversion for the values that can be
appended to `URLSearchParams` (and template-literal rendering). -/
def jsToString : JSValue → String
  | JSValue.undefined => "undefined"
  | JSValue.null => "null"
  | JSValue.bool true => "true"
  | JSValue.bool false => "false"
  | JSValue.num n => toString n
  | JSValue.str s => s
  | JSValue.obj _ => "[object Object]"

/-- `handleAPIError` from `api.ts`: given a failure value, if
`error.response` is truthy it destructures `status` and `data` from it
and builds `{message: data.detail || data.error || "An error occurred",
status, code: data.error_code}`; otherwise if `error.request` is truthy
it returns the fixed network-error object; otherwise it returns the
unknown-error object with `message: error.message || fallback`.
Property reads on `null`/`undefined` throw, which an `Except.error`
result records. -/
def handleAPIError (error : JSValue) : Except String JSValue :=
  match getProp error "response" with
  | Except.error e => Except.error e
  | Except.ok resp =>
    if jsTruthy resp then
      match getProp resp "status" with
      | Except.error e => Except.error e
      | Except.ok status =>
        match getProp resp "data" with
        | Except.error e => Except.error e
        | Except.ok data =>
          match getProp data "detail" with
          | Except.error e => Except.error e
          | Except.ok detail =>
            match getProp data "error" with
            | Except.error e => Except.error e
            | Except.ok err =>
              match getProp data "error_code" with
              | Except.error e => Except.error e
              | Except.ok code =>
                Except.ok (JSValue.obj
                  [("message", jsOr detail (jsOr err (JSValue.str "An error occurred"))),
                   ("status", status),
                   ("code", code)])
    else
      match getProp error "request" with
      | Except.error e => Except.error e
      | Except.ok req =>
        if jsTruthy req then
          Except.ok (JSValue.obj
            [("message", JSValue.str "Network error - please check your connection"),
             ("status", JSValue.num 0),
             ("code", JSValue.str "NETWORK_ERROR")])
        else
          match getProp error "message" with
          | Except.error e => Except.error e
          | Except.ok msg =>
            Except.ok (JSValue.obj
              [("message", jsOr msg (JSValue.str "An unexpected error occurred")),
               ("status", JSValue.num (-1)),
               ("code", JSValue.str "UNKNOWN_ERROR")])

/-- The branch conditions of `handleAPIError`, as a three-way
classification: a truthy `response` field selects the server-error
case, otherwise a truthy `request` field selects the network-error
case, otherwise the unknown-error case. -/
inductive ErrorCase where
  | server : ErrorCase
  | network : ErrorCase
  | unknown : ErrorCase
deriving DecidableEq, Repr

/-- Which of the three branches of `handleAPIError` a failure value
selects (the precedence order of the source code). -/
def classifyError (e : JSValue) : ErrorCase :=
  if jsTruthy (lookupProp e "response") then ErrorCase.server
  else if jsTruthy (lookupProp e "request") then ErrorCase.network
  else ErrorCase.unknown

/-- Branch condition of case 1 of `handleAPIError`: the failure carries
a truthy `response`. -/
def isServerCase (e : JSValue) : Bool :=
  jsTruthy (lookupProp e "response")

/-- Branch condition of case 2 of `handleAPIError`: no truthy
`response`, but a truthy `request`. -/
def isNetworkCase (e : JSValue) : Bool :=
  !(jsTruthy (lookupProp e "response")) && jsTruthy (lookupProp e "request")

/-- Branch condition of case 3 of `handleAPIError`: neither a truthy
`response` nor a truthy `request`. -/
def isUnknownCase (e : JSValue) : Bool :=
  !(jsTruthy (lookupProp e "response")) && !(jsTruthy (lookupProp e "request"))

/-- The `{message, status, code}` shape of a Normalized Error: an object
with exactly these three fields, in this order (the shape every result
of `handleAPIError` has). -/
def isNormalizedShape : JSValue → Bool
  | JSValue.obj [("message", _), ("status", _), ("code", _)] => true
  | _ => false

/-- The environment variables the module reads:
`process.env.REACT_APP_API_URL` and `process.env.REACT_APP_API_VERSION`
(`none` models an unset variable). -/
structure Env where
  reactAppApiUrl : Option String
  reactAppApiVersion : Option String

/-- `process.env.X || dflt`: an unset variable reads as `undefined` and
an empty string is falsy, so both fall back to the default. -/
def envOr (v : Option String) (dflt : String) : String :=
  match v with
  | some s => if s = "" then dflt else s
  | none => dflt

/-- `API_BASE_URL = process.env.REACT_APP_API_URL || "http://localhost:8000"`. -/
def API_BASE_URL (env : Env) : String :=
  envOr env.reactAppApiUrl "http://localhost:8000"

/-- `API_VERSION = process.env.REACT_APP_API_VERSION || "v1"`. -/
def API_VERSION (env : Env) : String :=
  envOr env.reactAppApiVersion "v1"

/-- The axios instance configuration built by `axios.create` in
`api.ts`: base URL, timeout in milliseconds, default content type. -/
structure AxiosConfig where
  baseURL : String
  timeout : Nat
  contentType : String

/-- The configuration the module creates once:
`baseURL = API_BASE_URL + "/api/" + API_VERSION`, `timeout: 30000`,
default header `Content-Type: application/json`. -/
def apiConfig (env : Env) : AxiosConfig :=
  { baseURL := API_BASE_URL env ++ "/api/" ++ API_VERSION env
    timeout := 30000
    contentType := "application/json" }

/-- An uploaded file handle (opaque content, as the module never reads
it — it only forwards it). -/
structure File where
  name : String
  bytes : List Nat

/-- HTTP method of a dispatched request. -/
inductive Method where
  | get : Method
  | post : Method
  | delete : Method
deriving DecidableEq, Repr

/-- Request body: none (GET and bodyless POST), a JSON object, or
multipart form data whose parts are named file entries. -/
inductive Body where
  | empty : Body
  | json : List (String × JSValue) → Body
  | multipart : List (String × File) → Body

/-- A request descriptor: what one gateway operation hands to the axios
instance — method, path relative to the configured base URL, and body. -/
structure RequestDescriptor where
  method : Method
  path : String
  body : Body

/-- The JSON field list of a request descriptor body (empty when the
body is not JSON). -/
def RequestDescriptor.jsonFields (d : RequestDescriptor) : List (String × JSValue) :=
  match d.body with
  | Body.json fields => fields
  | _ => []

/-- The full URL axios dispatches for a descriptor: the configured
`baseURL` followed by the relative path. -/
def requestUrl (env : Env) (d : RequestDescriptor) : String :=
  (apiConfig env).baseURL ++ d.path

/-- `URLSearchParams` accumulation in `datasetAPI.getClauses`: for each
entry of the params object, in order, `if (value !== undefined &&
value !== null) searchParams.append(key, value.toString())`.  The
`propSafe` test is exactly that condition. -/
def serializeParams : List (String × JSValue) → List (String × String)
  | [] => []
  | (k, v) :: rest =>
    if propSafe v then (k, jsToString v) :: serializeParams rest
    else serializeParams rest

/-- `URLSearchParams.toString()`: the appended pairs joined as
`k=v&k2=v2`.  (Percent-encoding of reserved characters is elided; every
value appearing in this development is an unreserved token, on which
the encoding is the identity.) -/
def queryString (pairs : List (String × String)) : String :=
  String.intercalate "&" (pairs.map fun p => p.1 ++ "=" ++ p.2)

/-- The JS object literal `{message, session_id: sessionId,
contract_id: contractId}` built by `chatAPI.sendMessage`: an omitted
optional argument is `undefined`. -/
def jsOfOptStr : Option String → JSValue
  | some s => JSValue.str s
  | none => JSValue.undefined

/-- A JS number argument that may be omitted (`undefined` when absent). -/
def jsOfOptNum : Option Int → JSValue
  | some n => JSValue.num n
  | none => JSValue.undefined

/-- `JSON.stringify` on a flat object, as axios applies it to a plain
JSON body: fields whose value is `undefined` are dropped; all other
fields are kept, in order. -/
def jsonSerializeObject (fields : List (String × JSValue)) : List (String × JSValue) :=
  fields.filter fun kv =>
    match kv.2 with
    | JSValue.undefined => false
    | _ => true

namespace healthAPI

/-- `healthAPI.check: () => api.get("/health")`. -/
def check : RequestDescriptor :=
  { method := Method.get, path := "/health", body := Body.empty }

/-- `healthAPI.detailed: () => api.get("/health/detailed")`. -/
def detailed : RequestDescriptor :=
  { method := Method.get, path := "/health/detailed", body := Body.empty }

end healthAPI

namespace contractAPI

/-- `contractAPI.upload`: builds a `FormData`, appends the single part
`("file", file)`, and posts it to `/contracts/upload` with a
`multipart/form-data` content type. -/
def upload (file : File) : RequestDescriptor :=
  { method := Method.post
    path := "/contracts/upload"
    body := Body.multipart [("file", file)] }

/-- `contractAPI.list(skip = 0, limit = 100)`: GET
`/contracts/list?skip=...&limit=...` (defaults 0 and 100 at the call
sites that omit the arguments). -/
def list (skip limit : Int) : RequestDescriptor :=
  { method := Method.get
    path := "/contracts/list?skip=" ++ toString skip ++ "&limit=" ++ toString limit
    body := Body.empty }

/-- `contractAPI.getById(contractId)`: GET `/contracts/{id}`. -/
def getById (contractId : Int) : RequestDescriptor :=
  { method := Method.get
    path := "/contracts/" ++ toString contractId
    body := Body.empty }

/-- `contractAPI.delete(contractId)`: DELETE `/contracts/{id}`. -/
def delete (contractId : Int) : RequestDescriptor :=
  { method := Method.delete
    path := "/contracts/" ++ toString contractId
    body := Body.empty }

end contractAPI

namespace analysisAPI

/-- `analysisAPI.analyze(contractId, analysisType = "full")`: POST
`/analysis/analyze` with JSON body `{contract_id, analysis_type}`. -/
def analyze (contractId : Int) (analysisType : String) : RequestDescriptor :=
  { method := Method.post
    path := "/analysis/analyze"
    body := Body.json
      [("contract_id", JSValue.num contractId),
       ("analysis_type", JSValue.str analysisType)] }

/-- `analysisAPI.getRiskLevels`. -/
def getRiskLevels : RequestDescriptor :=
  { method := Method.get, path := "/analysis/risk-levels", body := Body.empty }

/-- `analysisAPI.getClauseTypes`. -/
def getClauseTypes : RequestDescriptor :=
  { method := Method.get, path := "/analysis/clause-types", body := Body.empty }

/-- `analysisAPI.getContractAnalysis(contractId)`. -/
def getContractAnalysis (contractId : Int) : RequestDescriptor :=
  { method := Method.get
    path := "/analysis/contract/" ++ toString contractId ++ "/analysis"
    body := Body.empty }

end analysisAPI

namespace datasetAPI

/-- `datasetAPI.getClauses(params = {})`: serializes the entries of the
params object through `URLSearchParams` (see `serializeParams`) and
issues GET `/dataset/clauses?` followed by the query string. -/
def getClauses (params : List (String × JSValue)) : RequestDescriptor :=
  { method := Method.get
    path := "/dataset/clauses?" ++ queryString (serializeParams params)
    body := Body.empty }

/-- `datasetAPI.getClauseById(clauseId)`. -/
def getClauseById (clauseId : Int) : RequestDescriptor :=
  { method := Method.get
    path := "/dataset/clauses/" ++ toString clauseId
    body := Body.empty }

/-- `datasetAPI.getClauseTypes`. -/
def getClauseTypes : RequestDescriptor :=
  { method := Method.get, path := "/dataset/clauses/types/list", body := Body.empty }

/-- `datasetAPI.getRiskLevels`. -/
def getRiskLevels : RequestDescriptor :=
  { method := Method.get, path := "/dataset/clauses/risk-levels/list", body := Body.empty }

/-- `datasetAPI.getStats`. -/
def getStats : RequestDescriptor :=
  { method := Method.get, path := "/dataset/stats", body := Body.empty }

/-- `datasetAPI.reload`: POST `/dataset/reload` with no body. -/
def reload : RequestDescriptor :=
  { method := Method.post, path := "/dataset/reload", body := Body.empty }

end datasetAPI

namespace chatAPI

/-- `chatAPI.sendMessage(message, sessionId?, contractId?)`: POST
`/chat/ask` with the JSON object literal
`{message, session_id: sessionId, contract_id: contractId}`; an omitted
optional argument appears in the literal as `undefined`. -/
def sendMessage (message : String) (sessionId : Option String)
    (contractId : Option Int) : RequestDescriptor :=
  { method := Method.post
    path := "/chat/ask"
    body := Body.json
      [("message", JSValue.str message),
       ("session_id", jsOfOptStr sessionId),
       ("contract_id", jsOfOptNum contractId)] }

/-- `chatAPI.getSuggestions`. -/
def getSuggestions : RequestDescriptor :=
  { method := Method.get, path := "/chat/suggestions", body := Body.empty }

end chatAPI

/-- A value together with the console lines emitted while producing it:
the observable effect of the logging interceptors. -/
structure Logged (α : Type) where
  log : List String
  val : α

/-- The settled state of a call promise: fulfilled with a response
value, or rejected with an error value. -/
inductive Outcome where
  | fulfilled : JSValue → Outcome
  | rejected : JSValue → Outcome

/-- `config.method?.toUpperCase()`: optional chaining yields `undefined`
on a missing method, otherwise upper-cases the method string (methods
are always strings in a request config). -/
def methodUpper : JSValue → JSValue
  | JSValue.str s => JSValue.str s.toUpper
  | _ => JSValue.undefined

/-- Optional-chaining property read `v?.k`: `undefined` when `v` is
`null`/`undefined`, otherwise the property value. -/
def optChainProp (v : JSValue) (k : String) : JSValue :=
  if propSafe v then lookupProp v k else JSValue.undefined

/-- The request interceptor success handler: logs
`"🚀 API Request: {method} {url}"` and returns the config unchanged. -/
def requestOnFulfilled (config : JSValue) : Logged JSValue :=
  { log := ["🚀 API Request: " ++ jsToString (methodUpper (lookupProp config "method"))
      ++ " " ++ jsToString (lookupProp config "url")]
    val := config }

/-- The request interceptor error handler: logs the error and returns
`Promise.reject(error)` — the same error value, re-signaled. -/
def requestOnRejected (error : JSValue) : Logged Outcome :=
  { log := ["❌ API Request Error: " ++ jsToString error]
    val := Outcome.rejected error }

/-- The response interceptor success handler: logs
`"✅ API Response: {status} {url}"` and returns the response unchanged. -/
def responseOnFulfilled (response : JSValue) : Logged JSValue :=
  { log := ["✅ API Response: " ++ jsToString (lookupProp response "status")
      ++ " " ++ jsToString (lookupProp (lookupProp response "config") "url")]
    val := response }

/-- The response interceptor error handler: logs
`error.response?.data || error.message` and returns
`Promise.reject(error)` — the same error value, re-signaled. -/
def responseOnRejected (error : JSValue) : Logged Outcome :=
  { log := ["❌ API Response Error: "
      ++ jsToString (jsOr (optChainProp (lookupProp error "response") "data")
                          (lookupProp error "message"))]
    val := Outcome.rejected error }

/-- What the caller of a gateway operation observes once the transport
outcome has passed through the response interceptor pair. -/
def applyResponseInterceptors : Outcome → Outcome
  | Outcome.fulfilled r => Outcome.fulfilled (responseOnFulfilled r).val
  | Outcome.rejected e => (responseOnRejected e).val

/-- A truthy value is never `null` or `undefined`, so property access
on it succeeds. -/
theorem truthy_propSafe (v : JSValue) (h : jsTruthy v = true) :
    propSafe v = true := by
  cases v <;> simp_all [jsTruthy, propSafe]

/-- On an access-safe value, `getProp` returns the property value. -/
theorem getProp_of_propSafe (v : JSValue) (h : propSafe v = true) (k : String) :
    getProp v k = Except.ok (lookupProp v k) := by
  cases v <;> first | rfl | simp [propSafe] at h

/-- Evaluation of `handleAPIError` in the server-error case: the input
is access-safe, its `response` is truthy, and the response `data`
supports property access. -/
theorem handleAPIError_server (e : JSValue)
    (hsafe : propSafe e = true)
    (hresp : jsTruthy (lookupProp e "response") = true)
    (hdata : propSafe (lookupProp (lookupProp e "response") "data") = true) :
    handleAPIError e = Except.ok (JSValue.obj
      [("message",
        jsOr (lookupProp (lookupProp (lookupProp e "response") "data") "detail")
          (jsOr (lookupProp (lookupProp (lookupProp e "response") "data") "error")
            (JSValue.str "An error occurred"))),
       ("status", lookupProp (lookupProp e "response") "status"),
       ("code", lookupProp (lookupProp (lookupProp e "response") "data") "error_code")]) := by
  have h1 := getProp_of_propSafe e hsafe "response"
  have h2 := getProp_of_propSafe _ (truthy_propSafe _ hresp) "status"
  have h3 := getProp_of_propSafe _ (truthy_propSafe _ hresp) "data"
  have h4 := getProp_of_propSafe _ hdata "detail"
  have h5 := getProp_of_propSafe _ hdata "error"
  have h6 := getProp_of_propSafe _ hdata "error_code"
  simp [handleAPIError, h1, h2, h3, h4, h5, h6, hresp]

/-- Evaluation of `handleAPIError` in the network-error case: no truthy
`response`, but a truthy `request`. -/
theorem handleAPIError_network (e : JSValue)
    (hsafe : propSafe e = true)
    (hresp : jsTruthy (lookupProp e "response") = false)
    (hreq : jsTruthy (lookupProp e "request") = true) :
    handleAPIError e = Except.ok (JSValue.obj
      [("message", JSValue.str "Network error - please check your connection"),
       ("status", JSValue.num 0),
       ("code", JSValue.str "NETWORK_ERROR")]) := by
  have h1 := getProp_of_propSafe e hsafe "response"
  have h2 := getProp_of_propSafe e hsafe "request"
  simp [handleAPIError, h1, h2, hresp, hreq]

/-- Evaluation of `handleAPIError` in the unknown-error case: neither a
truthy `response` nor a truthy `request`. -/
theorem handleAPIError_unknown (e : JSValue)
    (hsafe : propSafe e = true)
    (hresp : jsTruthy (lookupProp e "response") = false)
    (hreq : jsTruthy (lookupProp e "request") = false) :
    handleAPIError e = Except.ok (JSValue.obj
      [("message", jsOr (lookupProp e "message")
          (JSValue.str "An unexpected error occurred")),
       ("status", JSValue.num (-1)),
       ("code", JSValue.str "UNKNOWN_ERROR")]) := by
  have h1 := getProp_of_propSafe e hsafe "response"
  have h2 := getProp_of_propSafe e hsafe "request"
  have h3 := getProp_of_propSafe e hsafe "message"
  simp [handleAPIError, h1, h2, h3, hresp, hreq]

/-- Every result `handleAPIError` ever returns has the Normalized Error
shape, and on access-safe inputs whose response data (if a response is
present) is access-safe, a result is returned. -/
theorem handleAPIError_total (e : JSValue)
    (hsafe : propSafe e = true)
    (hdata : jsTruthy (lookupProp e "response") = true →
      propSafe (lookupProp (lookupProp e "response") "data") = true) :
    ∃ r, handleAPIError e = Except.ok r ∧ isNormalizedShape r = true := by
  cases hresp : jsTruthy (lookupProp e "response") with
  | true =>
    exact ⟨_, handleAPIError_server e hsafe hresp (hdata hresp), rfl⟩
  | false =>
    cases hreq : jsTruthy (lookupProp e "request") with
    | true => exact ⟨_, handleAPIError_network e hsafe hresp hreq, rfl⟩
    | false => exact ⟨_, handleAPIError_unknown e hsafe hresp hreq, rfl⟩

/-- A value with a truthy property must be an object, hence access-safe. -/
theorem propSafe_of_truthy_prop (e : JSValue) (k : String)
    (h : jsTruthy (lookupProp e k) = true) : propSafe e = true := by
  cases e <;> simp_all [lookupProp, jsTruthy, propSafe]

/-- A value distinct from `undefined` and `null` is access-safe (the
`value !== undefined && value !== null` guard of `getClauses`). -/
theorem propSafe_of_ne (v : JSValue) (hu : v ≠ JSValue.undefined)
    (hn : v ≠ JSValue.null) : propSafe v = true := by
  cases v <;> simp_all [propSafe]

/-- Every params entry whose value passes the
`value !== undefined && value !== null` guard is appended (stringified)
by `serializeParams`. -/
theorem serializeParams_mem (params : List (String × JSValue)) (k : String)
    (v : JSValue) (hmem : (k, v) ∈ params) (hu : v ≠ JSValue.undefined)
    (hn : v ≠ JSValue.null) : (k, jsToString v) ∈ serializeParams params := by
  induction params with
  | nil => cases hmem
  | cons p rest ih =>
    cases hmem with
    | head =>
      have hp := propSafe_of_ne v hu hn
      simp [serializeParams, hp]
    | tail _ hmem2 =>
      obtain ⟨k2, v2⟩ := p
      by_cases hp : propSafe v2 = true
      · simp only [serializeParams, hp, if_true]
        exact List.mem_cons_of_mem _ (ih hmem2)
      · simp only [serializeParams, hp, if_false]
        exact ih hmem2

/-- A key absent from the params object never appears among the pairs
`serializeParams` appends. -/
theorem serializeParams_key_absent (params : List (String × JSValue)) (k : String)
    (habs : ∀ v, (k, v) ∉ params) : ∀ s, (k, s) ∉ serializeParams params := by
  revert habs
  induction params with
  | nil =>
    intro _ s h
    simp [serializeParams] at h
  | cons p rest ih =>
    intro habs s hmem
    obtain ⟨k2, v2⟩ := p
    have habs2 : ∀ v, (k, v) ∉ rest := fun v hv => habs v (List.mem_cons_of_mem _ hv)
    have hk : ¬(k2 = k) := fun h => habs v2 (by rw [h]; exact List.mem_cons_self _ _)
    by_cases hp : propSafe v2 = true
    · rw [serializeParams, if_pos hp] at hmem
      rcases List.mem_cons.mp hmem with heq | hmem2
      · exact hk (congrArg Prod.fst heq).symm
      · exact ih habs2 s hmem2
    · rw [serializeParams, if_neg hp] at hmem
      exact ih habs2 s hmem

/-- The three branch conditions of `handleAPIError` are mutually
exclusive and exhaustive: exactly one holds for every value. -/
theorem errorCase_trichotomy (e : JSValue) :
    (isServerCase e = true ∧ isNetworkCase e = false ∧ isUnknownCase e = false)
    ∨ (isServerCase e = false ∧ isNetworkCase e = true ∧ isUnknownCase e = false)
    ∨ (isServerCase e = false ∧ isNetworkCase e = false ∧ isUnknownCase e = true) := by
  cases hresp : jsTruthy (lookupProp e "response") <;>
    cases hreq : jsTruthy (lookupProp e "request") <;>
      simp [isServerCase, isNetworkCase, isUnknownCase, hresp, hreq]

/-- Claim C1, counterexample: the gateway does not normalize failures
before they reach the caller.  A raw axios-style timeout error (with
`message`, `code`, `request`, `isAxiosError` fields and no `status`)
passes through the response interceptor unchanged and is delivered to
the caller in raw transport-specific shape, which is not the
`{message, status, code}` Normalized Error shape. -/
theorem c1_counterexample :
    applyResponseInterceptors (Outcome.rejected (JSValue.obj
      [("message", JSValue.str "timeout of 30000ms exceeded"),
       ("code", JSValue.str "ECONNABORTED"),
       ("request", JSValue.obj []),
       ("isAxiosError", JSValue.bool true)]))
    = Outcome.rejected (JSValue.obj
      [("message", JSValue.str "timeout of 30000ms exceeded"),
       ("code", JSValue.str "ECONNABORTED"),
       ("request", JSValue.obj []),
       ("isAxiosError", JSValue.bool true)])
    ∧ isNormalizedShape (JSValue.obj
      [("message", JSValue.str "timeout of 30000ms exceeded"),
       ("code", JSValue.str "ECONNABORTED"),
       ("request", JSValue.obj []),
       ("isAxiosError", JSValue.bool true)]) = false :=
  ⟨rfl, rfl⟩

/-- Claim C1 (amended): every failed call re-signals the raw error
value unchanged to the caller; normalization to the `{message, status,
code}` shape is provided by the separately exported `handleAPIError`,
which maps every access-safe failure (whose response body, when a
truthy response is present, is itself access-safe) to a Normalized
Error — but only when the caller applies it. -/
theorem c1_raw_resignal_with_normalizer_available (e : JSValue)
    (hsafe : propSafe e = true)
    (hdata : jsTruthy (lookupProp e "response") = true →
      propSafe (lookupProp (lookupProp e "response") "data") = true) :
    applyResponseInterceptors (Outcome.rejected e) = Outcome.rejected e
    ∧ ∃ r, handleAPIError e = Except.ok r ∧ isNormalizedShape r = true :=
  ⟨rfl, handleAPIError_total e hsafe hdata⟩

/-- Witness for the amended claim C1 at a concrete network failure. -/
theorem c1_witness :
    applyResponseInterceptors (Outcome.rejected (JSValue.obj [("request", JSValue.obj [])]))
      = Outcome.rejected (JSValue.obj [("request", JSValue.obj [])])
    ∧ ∃ r, handleAPIError (JSValue.obj [("request", JSValue.obj [])]) = Except.ok r
        ∧ isNormalizedShape r = true :=
  c1_raw_resignal_with_normalizer_available
    (JSValue.obj [("request", JSValue.obj [])]) (by decide) (by decide)

/-- Claim C2: on every failure value that supports property access, the
normalizer selects exactly one of the three cases with the precedence
of the source (truthy `response` first, then truthy `request`, then
anything else); in the request-without-response case the result is
exactly the fixed network-error object, and in the remaining case the
result has status -1, code UNKNOWN_ERROR, and message taken from the
message field of the failure, falling back to the generic string. -/
theorem c2_classification_precedence_and_outputs (e : JSValue)
    (hsafe : propSafe e = true) :
    (jsTruthy (lookupProp e "response") = true →
      classifyError e = ErrorCase.server)
    ∧ (jsTruthy (lookupProp e "response") = false →
        jsTruthy (lookupProp e "request") = true →
          classifyError e = ErrorCase.network
          ∧ handleAPIError e = Except.ok (JSValue.obj
              [("message", JSValue.str "Network error - please check your connection"),
               ("status", JSValue.num 0),
               ("code", JSValue.str "NETWORK_ERROR")]))
    ∧ (jsTruthy (lookupProp e "response") = false →
        jsTruthy (lookupProp e "request") = false →
          classifyError e = ErrorCase.unknown
          ∧ handleAPIError e = Except.ok (JSValue.obj
              [("message", jsOr (lookupProp e "message")
                  (JSValue.str "An unexpected error occurred")),
               ("status", JSValue.num (-1)),
               ("code", JSValue.str "UNKNOWN_ERROR")])) := by
  refine ⟨fun hresp => ?_,
    fun hresp hreq => ⟨?_, handleAPIError_network e hsafe hresp hreq⟩,
    fun hresp hreq => ⟨?_, handleAPIError_unknown e hsafe hresp hreq⟩⟩
  · simp [classifyError, hresp]
  · simp [classifyError, hresp, hreq]
  · simp [classifyError, hresp, hreq]

/-- Witness for claim C2 at a concrete request-without-response failure. -/
theorem c2_witness :
    classifyError (JSValue.obj [("request", JSValue.num 1)]) = ErrorCase.network
    ∧ handleAPIError (JSValue.obj [("request", JSValue.num 1)]) = Except.ok (JSValue.obj
        [("message", JSValue.str "Network error - please check your connection"),
         ("status", JSValue.num 0),
         ("code", JSValue.str "NETWORK_ERROR")]) :=
  (c2_classification_precedence_and_outputs
    (JSValue.obj [("request", JSValue.num 1)]) (by decide)).2.1 (by decide) (by decide)

/-- Claim C3: for every failure carrying a (truthy) response whose body
supports property access, the normalized message is the detail field of
the body, falling back to its error field, falling back to the generic
string; the status is the status field of the response; the code is the
error_code field of the body (undefined when absent).  The three
concrete conjuncts instantiate the testable properties of the spec:
body with detail, body with only error, body with neither. -/
theorem c3_server_error_normalization (e : JSValue)
    (hresp : jsTruthy (lookupProp e "response") = true)
    (hdata : propSafe (lookupProp (lookupProp e "response") "data") = true) :
    handleAPIError e = Except.ok (JSValue.obj
      [("message",
        jsOr (lookupProp (lookupProp (lookupProp e "response") "data") "detail")
          (jsOr (lookupProp (lookupProp (lookupProp e "response") "data") "error")
            (JSValue.str "An error occurred"))),
       ("status", lookupProp (lookupProp e "response") "status"),
       ("code", lookupProp (lookupProp (lookupProp e "response") "data") "error_code")])
    ∧ handleAPIError (JSValue.obj [("response", JSValue.obj
        [("status", JSValue.num 404),
         ("data", JSValue.obj [("detail", JSValue.str "X")])])])
      = Except.ok (JSValue.obj
        [("message", JSValue.str "X"), ("status", JSValue.num 404),
         ("code", JSValue.undefined)])
    ∧ handleAPIError (JSValue.obj [("response", JSValue.obj
        [("status", JSValue.num 500),
         ("data", JSValue.obj [("error", JSValue.str "Y")])])])
      = Except.ok (JSValue.obj
        [("message", JSValue.str "Y"), ("status", JSValue.num 500),
         ("code", JSValue.undefined)])
    ∧ handleAPIError (JSValue.obj [("response", JSValue.obj
        [("status", JSValue.num 503), ("data", JSValue.obj [])])])
      = Except.ok (JSValue.obj
        [("message", JSValue.str "An error occurred"), ("status", JSValue.num 503),
         ("code", JSValue.undefined)]) := by
  refine ⟨?_, rfl, rfl, rfl⟩
  exact handleAPIError_server e (propSafe_of_truthy_prop e "response" hresp) hresp hdata

/-- Witness for claim C3 at a concrete 418 response carrying `detail`,
`error` and `error_code` fields: `detail` wins and `error_code` is
forwarded. -/
theorem c3_witness :
    handleAPIError (JSValue.obj [("response", JSValue.obj
      [("status", JSValue.num 418),
       ("data", JSValue.obj
         [("detail", JSValue.str "D"), ("error", JSValue.str "E"),
          ("error_code", JSValue.str "TEAPOT")])])])
    = Except.ok (JSValue.obj
      [("message", JSValue.str "D"), ("status", JSValue.num 418),
       ("code", JSValue.str "TEAPOT")]) :=
  (c3_server_error_normalization (JSValue.obj [("response", JSValue.obj
      [("status", JSValue.num 418),
       ("data", JSValue.obj
         [("detail", JSValue.str "D"), ("error", JSValue.str "E"),
          ("error_code", JSValue.str "TEAPOT")])])])
    (by decide) (by decide)).1

/-- Claim C4, counterexample: the normalizer is not total.  On a
failure whose response body is the (non-object) value `null` — a body
the server can produce by answering with the JSON literal null — the
property read `data.detail` throws a TypeError, so the failure maps to
none of the three Normalized Error cases. -/
theorem c4_counterexample :
    handleAPIError (JSValue.obj
      [("response", JSValue.obj
        [("status", JSValue.num 500), ("data", JSValue.null)])])
    = Except.error "TypeError" :=
  rfl

/-- Claim C4 (amended): the three cases are mutually exclusive and
exhaustive by construction, and the classification is total on every
failure value that supports property access and whose response body
(when a truthy response is present) also supports property access; when
the body is `null` or `undefined`, normalization throws instead of
producing a case. -/
theorem c4_totality_on_safe_inputs (e : JSValue)
    (hsafe : propSafe e = true)
    (hdata : isServerCase e = true →
      propSafe (lookupProp (lookupProp e "response") "data") = true) :
    (∃ r, handleAPIError e = Except.ok r ∧ isNormalizedShape r = true)
    ∧ ((isServerCase e = true ∧ isNetworkCase e = false ∧ isUnknownCase e = false)
       ∨ (isServerCase e = false ∧ isNetworkCase e = true ∧ isUnknownCase e = false)
       ∨ (isServerCase e = false ∧ isNetworkCase e = false ∧ isUnknownCase e = true)) :=
  ⟨handleAPIError_total e hsafe hdata, errorCase_trichotomy e⟩

/-- Witness for the amended claim C4 at a concrete failure with neither
response nor request. -/
theorem c4_witness :
    (∃ r, handleAPIError (JSValue.obj [("message", JSValue.str "boom")]) = Except.ok r
        ∧ isNormalizedShape r = true)
    ∧ ((isServerCase (JSValue.obj [("message", JSValue.str "boom")]) = true
          ∧ isNetworkCase (JSValue.obj [("message", JSValue.str "boom")]) = false
          ∧ isUnknownCase (JSValue.obj [("message", JSValue.str "boom")]) = false)
       ∨ (isServerCase (JSValue.obj [("message", JSValue.str "boom")]) = false
          ∧ isNetworkCase (JSValue.obj [("message", JSValue.str "boom")]) = true
          ∧ isUnknownCase (JSValue.obj [("message", JSValue.str "boom")]) = false)
       ∨ (isServerCase (JSValue.obj [("message", JSValue.str "boom")]) = false
          ∧ isNetworkCase (JSValue.obj [("message", JSValue.str "boom")]) = false
          ∧ isUnknownCase (JSValue.obj [("message", JSValue.str "boom")]) = true)) :=
  c4_totality_on_safe_inputs (JSValue.obj [("message", JSValue.str "boom")])
    (by decide) (by decide)

/-- Claim C5, counterexample: for `sendMessage("hi")` with both
optional arguments absent, the serialized JSON body contains only the
key `message` — `session_id` and `contract_id` are not present at all
(JSON serialization drops undefined-valued fields), rather than being
present with value null as the claim states. -/
theorem c5_counterexample :
    (jsonSerializeObject (chatAPI.sendMessage "hi" none none).jsonFields).map Prod.fst
      = ["message"]
    ∧ ¬("session_id" ∈
        (jsonSerializeObject (chatAPI.sendMessage "hi" none none).jsonFields).map Prod.fst)
    ∧ ¬("contract_id" ∈
        (jsonSerializeObject (chatAPI.sendMessage "hi" none none).jsonFields).map Prod.fst) := by
  have h : (jsonSerializeObject (chatAPI.sendMessage "hi" none none).jsonFields).map Prod.fst
      = ["message"] := rfl
  exact ⟨h, by rw [h]; decide, by rw [h]; decide⟩

/-- Claim C5 (amended): the object literal built by `sendMessage`
always contains the keys message, session_id and contract_id, an absent
optional argument appearing as undefined; JSON serialization then drops
the undefined-valued keys, so the serialized request body omits
session_id and contract_id when they are absent and contains them with
the given values when they are present. -/
theorem c5_optional_keys_dropped_by_json (m : String) (s : String) (c : Int) :
    (chatAPI.sendMessage m none none).jsonFields.map Prod.fst
      = ["message", "session_id", "contract_id"]
    ∧ jsonSerializeObject (chatAPI.sendMessage m none none).jsonFields
      = [("message", JSValue.str m)]
    ∧ jsonSerializeObject (chatAPI.sendMessage m (some s) (some c)).jsonFields
      = [("message", JSValue.str m), ("session_id", JSValue.str s),
         ("contract_id", JSValue.num c)] :=
  ⟨rfl, rfl, rfl⟩

/-- Claim C6: every params entry passing the non-undefined, non-null
guard is serialized into the query string, a key absent from the params
object never appears in it, `getClauses({clauseType: "NDA"})` yields
exactly the query string `clauseType=NDA`, and `getClauses({})` yields
the empty query string. -/
theorem c6_getClauses_query_serialization :
    (∀ (params : List (String × JSValue)) (k : String) (v : JSValue),
        (k, v) ∈ params → v ≠ JSValue.undefined → v ≠ JSValue.null →
          (k, jsToString v) ∈ serializeParams params)
    ∧ (∀ (params : List (String × JSValue)) (k : String),
        (∀ v, (k, v) ∉ params) → ∀ s, (k, s) ∉ serializeParams params)
    ∧ (datasetAPI.getClauses [("clauseType", JSValue.str "NDA")]).path
      = "/dataset/clauses?clauseType=NDA"
    ∧ (datasetAPI.getClauses []).path = "/dataset/clauses?"
    ∧ queryString (serializeParams []) = "" :=
  ⟨serializeParams_mem, serializeParams_key_absent, rfl, rfl, rfl⟩

/-- Witness for claim C6: the single recognized entry of
`{clauseType: "NDA"}` is serialized. -/
theorem c6_witness :
    ("clauseType", jsToString (JSValue.str "NDA"))
      ∈ serializeParams [("clauseType", JSValue.str "NDA")] :=
  c6_getClauses_query_serialization.1 [("clauseType", JSValue.str "NDA")]
    "clauseType" (JSValue.str "NDA") (List.mem_singleton.mpr rfl)
    (fun h => nomatch h) (fun h => nomatch h)

/-- Claim C7: every request URL is the configured base URL followed by
the relative path, where the base URL is composed as
`{API_BASE_URL}/api/{API_VERSION}`; the timeout is fixed at 30000
milliseconds; and with both environment variables unset the
configuration defaults to `http://localhost:8000` and `v1`, giving the
base URL `http://localhost:8000/api/v1`. -/
theorem c7_url_composition_and_timeout (env : Env) (d : RequestDescriptor) :
    requestUrl env d = API_BASE_URL env ++ "/api/" ++ API_VERSION env ++ d.path
    ∧ (apiConfig env).timeout = 30000
    ∧ API_BASE_URL ⟨none, none⟩ = "http://localhost:8000"
    ∧ API_VERSION ⟨none, none⟩ = "v1"
    ∧ (apiConfig ⟨none, none⟩).baseURL = "http://localhost:8000/api/v1" :=
  ⟨rfl, rfl, rfl, rfl, rfl⟩

/-- Claim C8: `upload(file)` posts to `/contracts/upload` a multipart
body that consists of exactly one part, named file, whose content is
the given file handle. -/
theorem c8_upload_single_file_part (file : File) :
    (contractAPI.upload file).body = Body.multipart [("file", file)]
    ∧ (contractAPI.upload file).method = Method.post
    ∧ (contractAPI.upload file).path = "/contracts/upload" :=
  ⟨rfl, rfl, rfl⟩

/-- Claim C9: the interceptors are purely diagnostic.  The request
interceptor returns the configuration unchanged, the response
interceptor returns the response unchanged, both error handlers
re-signal the very same error value, and the outcome a caller observes
through the response interceptor pair is the transport outcome itself. -/
theorem c9_logging_is_purely_diagnostic :
    (∀ config : JSValue, (requestOnFulfilled config).val = config)
    ∧ (∀ response : JSValue, (responseOnFulfilled response).val = response)
    ∧ (∀ error : JSValue, (requestOnRejected error).val = Outcome.rejected error)
    ∧ (∀ error : JSValue, (responseOnRejected error).val = Outcome.rejected error)
    ∧ (∀ error : JSValue,
        applyResponseInterceptors (Outcome.rejected error) = Outcome.rejected error)
    ∧ (∀ response : JSValue,
        applyResponseInterceptors (Outcome.fulfilled response) = Outcome.fulfilled response) :=
  ⟨fun _ => rfl, fun _ => rfl, fun _ => rfl, fun _ => rfl, fun _ => rfl, fun _ => rfl⟩

/-- Claim C10: `getClauses` whitelists nothing — every entry of the
params object with a value other than undefined and null is serialized,
whatever its key; in particular a key outside the recognized filter
set and a numeric value equal to 0 are both serialized. -/
theorem c10_no_whitelisting_in_getClauses (params : List (String × JSValue))
    (k : String) (v : JSValue) (hmem : (k, v) ∈ params)
    (hu : v ≠ JSValue.undefined) (hn : v ≠ JSValue.null) :
    (k, jsToString v) ∈ serializeParams params
    ∧ (datasetAPI.getClauses
        [("totally_unrecognized", JSValue.str "x"), ("page", JSValue.num 0)]).path
      = "/dataset/clauses?totally_unrecognized=x&page=0"
    ∧ serializeParams [("page", JSValue.num 0)] = [("page", "0")] :=
  ⟨serializeParams_mem params k v hmem hu hn, rfl, rfl⟩

/-- Witness for claim C10 at an unrecognized key carrying the number 0. -/
theorem c10_witness :
    ("bogus", jsToString (JSValue.num 0)) ∈ serializeParams [("bogus", JSValue.num 0)]
    ∧ (datasetAPI.getClauses
        [("totally_unrecognized", JSValue.str "x"), ("page", JSValue.num 0)]).path
      = "/dataset/clauses?totally_unrecognized=x&page=0"
    ∧ serializeParams [("page", JSValue.num 0)] = [("page", "0")] :=
  c10_no_whitelisting_in_getClauses [("bogus", JSValue.num 0)] "bogus"
    (JSValue.num 0) (List.mem_singleton.mpr rfl)
    (fun h => nomatch h) (fun h => nomatch h)
